import Mathlib

/-!
Shallow embedding of `homework.py` / `exceptions.py` from the
AlexeyBykovV/homework_bot repository: a Telegram bot that polls the
Practicum homework-status API and forwards status changes.

Python values reaching the functions under verification are modelled by
`PyVal` (JSON-decoded data: `None`, booleans, integers, strings, lists,
dicts).  Python exceptions are modelled by `PyError`; a Python function
that may raise becomes a Lean function into `Except PyError _`.
-/

/-- Model of the Python values that flow through the bot: the JSON data
types plus `None`.  Dicts are association lists with string keys. -/
inductive PyVal where
  | none : PyVal
  | bool : Bool → PyVal
  | int : Int → PyVal
  | str : String → PyVal
  | list : List PyVal → PyVal
  | dict : List (String × PyVal) → PyVal

/-- Model of the exception classes raised by the code: Python built-ins
`TypeError`, `KeyError`, `EnvironmentError`, and the project classes
`ResponseStatusError`, `HomeworkStatusError` from `exceptions.py`. -/
inductive PyError where
  | typeError : String → PyError
  | keyError : String → PyError
  | environmentError : String → PyError
  | responseStatusError : String → PyError
  | homeworkStatusError : String → PyError
deriving DecidableEq, Repr

/-- Python dict lookup on the association-list model (keys are unique in a
Python dict; lookup returns the first binding). -/
def dictGet : List (String × PyVal) → String → Option PyVal
  | [], _ => Option.none
  | (k, v) :: rest, key => if k = key then some v else dictGet rest key

/-- Python `type(v).__name__` for the modelled values. -/
def PyVal.typeName : PyVal → String
  | .none => "NoneType"
  | .bool _ => "bool"
  | .int _ => "int"
  | .str _ => "str"
  | .list _ => "list"
  | .dict _ => "dict"

mutual

/-- Python `v == w` (structural equality on the modelled values). -/
def pyEq : PyVal → PyVal → Bool
  | .none, .none => true
  | .bool a, .bool b => a = b
  | .int a, .int b => a = b
  | .str a, .str b => a = b
  | .list a, .list b => pyEqList a b
  | .dict a, .dict b => pyEqDict a b
  | _, _ => false

/-- Elementwise `pyEq` on lists. -/
def pyEqList : List PyVal → List PyVal → Bool
  | [], [] => true
  | a :: as1, b :: bs1 => pyEq a b && pyEqList as1 bs1
  | _, _ => false

/-- Elementwise `pyEq` on dict bindings. -/
def pyEqDict : List (String × PyVal) → List (String × PyVal) → Bool
  | [], [] => true
  | (ka, va) :: as1, (kb, vb) :: bs1 =>
      ka = kb && pyEq va vb && pyEqDict as1 bs1
  | _, _ => false

end

mutual

/-- Python `repr(v)` for the modelled values (quotes around strings,
bracketed lists, braced dicts). -/
def py_repr : PyVal → String
  | .none => "None"
  | .bool true => "True"
  | .bool false => "False"
  | .int n => toString n
  | .str s => "\x27" ++ s ++ "\x27"
  | .list l => "[" ++ py_repr_items l ++ "]"
  | .dict kvs => "\x7b" ++ py_repr_bindings kvs ++ "\x7d"

/-- Comma-separated `repr` of list items. -/
def py_repr_items : List PyVal → String
  | [] => ""
  | [v] => py_repr v
  | v :: rest => py_repr v ++ ", " ++ py_repr_items rest

/-- Comma-separated `repr` of dict bindings. -/
def py_repr_bindings : List (String × PyVal) → String
  | [] => ""
  | [(k, v)] => "\x27" ++ k ++ "\x27: " ++ py_repr v
  | (k, v) :: rest =>
      "\x27" ++ k ++ "\x27: " ++ py_repr v ++ ", " ++ py_repr_bindings rest

end

/-- Python `str(v)`: the raw string for strings, `repr` otherwise (they
agree on the other modelled types). -/
def py_str : PyVal → String
  | .str s => s
  | v => py_repr v

/-- Boolean substring test, modelling Python `key in s` for strings
(the empty pattern is contained in every string). -/
def strContainsSub (s pat : String) : Bool :=
  if pat = "" then true else (s.splitOn pat).length ≥ 2

/-- Python `key in container` for a string `key`: key test on dicts,
substring test on strings, element test on lists; `TypeError` on
non-iterable values. -/
def py_contains (container : PyVal) (key : String) : Except PyError Bool :=
  match container with
  | .dict kvs => .ok (dictGet kvs key).isSome
  | .str s => .ok (strContainsSub s key)
  | .list l => .ok (l.any (fun v => pyEq v (PyVal.str key)))
  | other =>
      .error (.typeError
        ("argument of type " ++ other.typeName ++ " is not iterable"))

/-- Python `container[key]` for a string `key`: dict lookup raising
`KeyError` when absent, `TypeError` on the other modelled values
(string and list subscripts must be integers). -/
def py_getitem (container : PyVal) (key : String) : Except PyError PyVal :=
  match container with
  | .dict kvs =>
      match dictGet kvs key with
      | some v => .ok v
      | Option.none => .error (.keyError key)
  | .str _ => .error (.typeError "string indices must be integers")
  | .list _ =>
      .error (.typeError "list indices must be integers or slices, not str")
  | other =>
      .error (.typeError (other.typeName ++ " object is not subscriptable"))

/-- `HOMEWORK_VERDICTS` from `homework.py` lines 38-42. -/
def HOMEWORK_VERDICTS : List (String × String) :=
  [("approved", "Работа проверена: ревьюеру всё понравилось. Ура!"),
   ("reviewing", "Работа взята на проверку ревьюером."),
   ("rejected", "Работа проверена: у ревьюера есть замечания.")]

/-- Lookup in the `HOMEWORK_VERDICTS` table by string key. -/
def verdicts_lookup : String → Option String := fun code =>
  (HOMEWORK_VERDICTS.find? (fun kv => kv.1 = code)).map Prod.snd

/-- Python `status in HOMEWORK_VERDICTS` followed by
`HOMEWORK_VERDICTS[status]`: membership of an arbitrary value in a dict
keyed by strings.  A string key is looked up; unhashable values (lists,
dicts) raise `TypeError`; other hashable values are simply not members. -/
def verdict_check (status : PyVal) : Except PyError (Option String) :=
  match status with
  | .str s => .ok (verdicts_lookup s)
  | .list _ => .error (.typeError "unhashable type: list")
  | .dict _ => .error (.typeError "unhashable type: dict")
  | _ => .ok Option.none

/-- `check_response` from `homework.py` lines 134-161: rejects a non-dict
response with `TypeError`, a dict missing `homeworks` or `current_date`
with `KeyError`, a non-list `homeworks` value with `TypeError`, and
otherwise returns the `homeworks` list.  (The emptiness test on line 152
only logs and is not modelled.) -/
def check_response (response : PyVal) : Except PyError (List PyVal) :=
  match response with
  | .dict kvs =>
      match dictGet kvs "homeworks", dictGet kvs "current_date" with
      | some homeworks, some _ =>
          match homeworks with
          | .list l => .ok l
          | other =>
              .error (.typeError
                ("В ответе API под ключом `homeworks` данные не в виде списка" ++
                 "Ожидался тип данных list, получен " ++ other.typeName))
      | _, _ => .error (.keyError "Отсутствие ожидаемых ключей в ответе API.")
  | other =>
      .error (.typeError
        ("В ответе API структура данных не соответствует ожиданиям:" ++
         "Ожидался тип данных dict, получен " ++ other.typeName))

/-- `parse_status` from `homework.py` lines 164-184: checks that the key
`homework_name` is present, reads `homework_name` and `status`, raises
`HomeworkStatusError` when the status is not in `HOMEWORK_VERDICTS`, and
otherwise builds the notification string. -/
def parse_status (homework : PyVal) : Except PyError String :=
  match py_contains homework "homework_name" with
  | .error e => .error e
  | .ok false =>
      .error (.keyError
        "Получено пустое значение по ключу \"homework_name\".")
  | .ok true =>
      match py_getitem homework "homework_name" with
      | .error e => .error e
      | .ok homework_name =>
          match py_getitem homework "status" with
          | .error e => .error e
          | .ok homework_status =>
              match verdict_check homework_status with
              | .error e => .error e
              | .ok Option.none =>
                  .error (.homeworkStatusError
                    ("Неожиданный статус домашней работы: " ++
                     py_str homework_status))
              | .ok (some verdict) =>
                  .ok ("Изменился статус проверки работы \"" ++
                       py_str homework_name ++ "\". " ++ verdict)

/-- Startup environment: the three variables read via `os.getenv` /
`load_dotenv` in `homework.py` (each may be absent). -/
structure Env where
  practicum_token : Option String
  telegram_token : Option String
  telegram_chat_id : Option String

/-- `homework.py` line 29: the module assigns the literal `None` to
`PRACTICUM_TOKEN`; the environment is never consulted. -/
def PRACTICUM_TOKEN (_env : Env) : Option String := Option.none

/-- `homework.py` line 30: the module assigns the literal `None` to
`TELEGRAM_TOKEN`; the environment is never consulted. -/
def TELEGRAM_TOKEN (_env : Env) : Option String := Option.none

/-- `homework.py` line 31: `TELEGRAM_CHAT_ID = os.getenv('TELEGRAM_CHAT_ID')`. -/
def TELEGRAM_CHAT_ID (env : Env) : Option String := env.telegram_chat_id

/-- Python `repr` of a list of strings, used by the f-string in
`check_tokens`. -/
def render_str_list (l : List String) : String :=
  "[" ++ String.intercalate ", " (l.map (fun s => "\x27" ++ s ++ "\x27")) ++ "]"

/-- `check_tokens` from `homework.py` lines 45-70: collects the names of
the required values that are `None` and raises `EnvironmentError` when
any is missing. -/
def check_tokens (env : Env) : Except PyError Unit :=
  let required_tokens : List (String × Option String) :=
    [("PRACTICUM_TOKEN", PRACTICUM_TOKEN env),
     ("TELEGRAM_TOKEN", TELEGRAM_TOKEN env),
     ("TELEGRAM_CHAT_ID", TELEGRAM_CHAT_ID env)]
  let missing_tokens :=
    (required_tokens.filter (fun p => p.2.isNone)).map Prod.fst
  if missing_tokens.isEmpty then
    .ok ()
  else
    .error (.environmentError
      ("Недостающие переменные окружения: " ++
       render_str_list missing_tokens ++ "."))

/-- Outcome of one Telegram transport attempt: success, or one of the two
exception classes caught in `send_message` (`telebot`'s `ApiException`,
`requests`' `RequestException`). -/
inductive TelegramError where
  | apiException : String → TelegramError
  | requestException : String → TelegramError

/-- `send_message` from `homework.py` lines 73-91: attempts delivery and
returns `True` on success; both `ApiException` and `RequestException` are
caught inside the function, logged, and turned into `False`.  The `Except`
codomain records whether an exception escapes to the caller. -/
def send_message (transport : Except TelegramError Unit) :
    Except TelegramError Bool :=
  match transport with
  | .ok _ => .ok true
  | .error (.apiException _) => .ok false
  | .error (.requestException _) => .ok false

/-- Python `str(error)` for the modelled exceptions: `KeyError` renders
the repr of its key argument, the others render their message. -/
def PyError.pymsg : PyError → String
  | .typeError m => m
  | .keyError m => "\x27" ++ m ++ "\x27"
  | .environmentError m => m
  | .responseStatusError m => m
  | .homeworkStatusError m => m

/-- The f-string of `homework.py` line 204:
`f'Произошел сбой в работе программы: {error}'`. -/
def incident_message (e : PyError) : String :=
  "Произошел сбой в работе программы: " ++ e.pymsg

/-- `response.get(key, default)` of `homework.py` line 201.  The loop only
reaches this line after `check_response` succeeded, so `response` is a
dict there; on the unreachable non-dict values the default is returned. -/
def response_get (response : PyVal) (key : String) (default : PyVal) : PyVal :=
  match response with
  | .dict kvs => (dictGet kvs key).getD default
  | _ => default

/-- The state the loop of `main` (lines 187-210) threads between cycles:
the cursor `timestamp` and the `error_reported` flag. -/
structure LoopState where
  timestamp : PyVal
  error_reported : Bool

/-- The body of the `try` block of one cycle of `main` (lines 196-200)
up to the first raised exception: fetch (the cycle's API outcome is an
input), validate, and, when the homeworks list is non-empty, classify its
first item.  Returns the response together with the optional notification
message passed to `send_message`. -/
def cycle_result (api : Except PyError PyVal) :
    Except PyError (PyVal × Option String) :=
  match api with
  | .error e => .error e
  | .ok response =>
      match check_response response with
      | .error e => .error e
      | .ok [] => .ok (response, Option.none)
      | .ok (hw :: _) =>
          match parse_status hw with
          | .error e => .error e
          | .ok status => .ok (response, some status)

/-- One full cycle of the `while True` loop of `main` (lines 194-210):
on success the status message (if any) is sent, the cursor is set from
`current_date`, and `error_reported` is cleared; on failure the cursor is
kept and the incident message is sent only when `error_reported` was not
yet set.  Returns the new state and the list of messages handed to
`send_message` during the cycle. -/
def run_cycle (api : Except PyError PyVal) (st : LoopState) :
    LoopState × List String :=
  match cycle_result api with
  | .ok (response, msg) =>
      (⟨response_get response "current_date" st.timestamp, false⟩, msg.toList)
  | .error e =>
      if st.error_reported then (st, [])
      else ({ st with error_reported := true }, [incident_message e])

/-- Finitely many consecutive cycles of the loop, collecting all messages
handed to `send_message`. -/
def run_cycles : List (Except PyError PyVal) → LoopState → LoopState × List String
  | [], st => (st, [])
  | api :: rest, st =>
      let p := run_cycle api st
      let q := run_cycles rest p.1
      (q.1, p.2 ++ q.2)

/-- A cycle fails when an exception reaches the `except` branch of `main`. -/
def cycle_fails (api : Except PyError PyVal) : Bool :=
  match cycle_result api with
  | .ok _ => false
  | .error _ => true

/-! Helper lemmas about single cycles and runs of cycles. -/

theorem cycle_fails_iff (api : Except PyError PyVal) :
    cycle_fails api = true ↔ ∃ e, cycle_result api = Except.error e := by
  unfold cycle_fails
  cases h : cycle_result api <;> simp

theorem run_cycle_error_eq (api : Except PyError PyVal) (e : PyError)
    (st : LoopState) (h : cycle_result api = Except.error e) :
    run_cycle api st =
      if st.error_reported then (st, [])
      else ({ st with error_reported := true }, [incident_message e]) := by
  simp [run_cycle, h]

theorem run_cycle_fail_timestamp (api : Except PyError PyVal) (st : LoopState)
    (h : cycle_fails api = true) :
    (run_cycle api st).1.timestamp = st.timestamp := by
  obtain ⟨e, he⟩ := (cycle_fails_iff api).1 h
  rw [run_cycle_error_eq api e st he]
  by_cases hr : st.error_reported <;> simp [hr]

theorem run_cycles_reported_all_fail (inputs : List (Except PyError PyVal))
    (st : LoopState) (hfail : ∀ x ∈ inputs, cycle_fails x = true)
    (hrep : st.error_reported = true) :
    run_cycles inputs st = (st, []) := by
  induction inputs with
  | nil => rfl
  | cons api rest ih =>
      obtain ⟨e, he⟩ := (cycle_fails_iff api).1 (hfail api (by simp))
      have h1 : run_cycle api st = (st, []) := by
        rw [run_cycle_error_eq api e st he]
        simp [hrep]
      simp [run_cycles, h1, ih (fun x hx => hfail x (by simp [hx]))]

theorem run_cycles_fail_timestamp (inputs : List (Except PyError PyVal)) :
    ∀ st : LoopState, (∀ x ∈ inputs, cycle_fails x = true) →
      (run_cycles inputs st).1.timestamp = st.timestamp := by
  induction inputs with
  | nil => intro st _; rfl
  | cons api rest ih =>
      intro st hfail
      have h1 : (run_cycle api st).1.timestamp = st.timestamp :=
        run_cycle_fail_timestamp api st (hfail api (by simp))
      have h2 := ih (run_cycle api st).1 (fun x hx => hfail x (by simp [hx]))
      simp only [run_cycles]
      rw [h2, h1]

/-! Claim theorems. -/

/-- Claim C1 (code bug): the claim says `check_tokens` passes when all
three configuration values are set in the environment; in the code,
`PRACTICUM_TOKEN` and `TELEGRAM_TOKEN` are assigned the literal `None`
(lines 29-30) and never read from the environment, so `check_tokens`
raises `EnvironmentError` for every startup environment, including one
where all three variables are set. -/
theorem C1_check_tokens_never_passes :
    (∀ env : Env, ∃ m,
      check_tokens env = Except.error (PyError.environmentError m)) ∧
    check_tokens ⟨some "api-token", some "bot-token", some "chat-id"⟩ ≠
      Except.ok () := by
  constructor
  · intro env
    cases h : env.telegram_chat_id <;>
      simp [check_tokens, PRACTICUM_TOKEN, TELEGRAM_TOKEN, TELEGRAM_CHAT_ID, h]
  · intro h
    simp [check_tokens, PRACTICUM_TOKEN, TELEGRAM_TOKEN, TELEGRAM_CHAT_ID] at h

/-- Claim C2: starting a cycle with the `error_reported` flag clear, a
non-empty sequence of consecutive failing cycles hands exactly one
message to `send_message` — the incident message of the first failing
cycle, emitted by that first cycle — and leaves the flag set; a
succeeding cycle always clears the flag, and a failing cycle entered with
the flag clear always notifies (so a new outage after a success notifies
again). -/
theorem C2_outage_reported_once (api : Except PyError PyVal)
    (rest : List (Except PyError PyVal)) (st : LoopState)
    (hfail : ∀ x ∈ api :: rest, cycle_fails x = true)
    (hflag : st.error_reported = false) :
    (∃ e, cycle_result api = Except.error e ∧
      (run_cycle api st).2 = [incident_message e] ∧
      (run_cycles (api :: rest) st).2 = [incident_message e]) ∧
    (run_cycles (api :: rest) st).1.error_reported = true ∧
    (∀ good st2, cycle_fails good = false →
      (run_cycle good st2).1.error_reported = false) ∧
    (∀ bad st2, cycle_fails bad = true → st2.error_reported = false →
      (run_cycle bad st2).2.length = 1) := by
  obtain ⟨e, he⟩ := (cycle_fails_iff api).1 (hfail api (by simp))
  have h1 : run_cycle api st =
      ({ st with error_reported := true }, [incident_message e]) := by
    rw [run_cycle_error_eq api e st he]
    simp [hflag]
  have hrest : run_cycles rest { st with error_reported := true } =
      ({ st with error_reported := true }, []) :=
    run_cycles_reported_all_fail rest _
      (fun x hx => hfail x (by simp [hx])) rfl
  refine ⟨⟨e, he, by simp [h1], ?_⟩, ?_, ?_, ?_⟩
  · simp [run_cycles, h1, hrest]
  · simp [run_cycles, h1, hrest]
  · intro good st2 hgood
    cases hg : cycle_result good with
    | ok p =>
        simp [run_cycle, hg]
    | error e2 =>
        unfold cycle_fails at hgood
        rw [hg] at hgood
        simp at hgood
  · intro bad st2 hbad hrep2
    obtain ⟨e2, he2⟩ := (cycle_fails_iff bad).1 hbad
    rw [run_cycle_error_eq bad e2 st2 he2]
    simp [hrep2]

/-- Witness for C2 at a concrete two-cycle outage. -/
theorem C2_outage_reported_once_witness :
    (run_cycles
      [Except.error (PyError.responseStatusError "down"),
       Except.error (PyError.responseStatusError "still down")]
      ⟨PyVal.int 0, false⟩).2.length = 1 ∧
    (run_cycles
      [Except.error (PyError.responseStatusError "down"),
       Except.error (PyError.responseStatusError "still down")]
      ⟨PyVal.int 0, false⟩).1.error_reported = true := by
  have h := C2_outage_reported_once
    (Except.error (PyError.responseStatusError "down"))
    [Except.error (PyError.responseStatusError "still down")]
    ⟨PyVal.int 0, false⟩
    (by intro x hx; simp at hx; rcases hx with h1 | h1 <;> subst h1 <;> rfl)
    rfl
  obtain ⟨⟨e, -, -, hmsg⟩, hrep, -, -⟩ := h
  exact ⟨by rw [hmsg]; rfl, hrep⟩

/-- Claim C3: across any sequence of failing cycles the cursor keeps its
initial value, and a single cycle that changes the cursor must be a
succeeding cycle. -/
theorem C3_cursor_unchanged_on_failure (inputs : List (Except PyError PyVal))
    (st : LoopState) (hfail : ∀ x ∈ inputs, cycle_fails x = true) :
    (run_cycles inputs st).1.timestamp = st.timestamp ∧
    (∀ api, ∀ st2 : LoopState,
      (run_cycle api st2).1.timestamp ≠ st2.timestamp →
      cycle_fails api = false) := by
  constructor
  · exact run_cycles_fail_timestamp inputs st hfail
  · intro api st2 hne
    cases hcf : cycle_fails api with
    | false => rfl
    | true => exact absurd (run_cycle_fail_timestamp api st2 hcf) hne

/-- Witness for C3 at a concrete failing run. -/
theorem C3_cursor_unchanged_on_failure_witness :
    (run_cycles
      [Except.error (PyError.responseStatusError "down"),
       Except.ok (PyVal.int 5),
       Except.ok (PyVal.dict [("homeworks", PyVal.int 1)])]
      ⟨PyVal.int 7, false⟩).1.timestamp = PyVal.int 7 :=
  (C3_cursor_unchanged_on_failure _ ⟨PyVal.int 7, false⟩
    (by intro x hx; simp at hx; rcases hx with h1 | h1 | h1 <;> subst h1 <;> rfl)).1

/-- Claim C4: on an item with both `homework_name` and `status` keys,
`parse_status` returns the fixed template around the configured verdict
for every known status code, returns exactly the expected sentence for
name `X` and status `approved`, and raises `HomeworkStatusError` for a
status code outside the verdict table. -/
theorem C4_parse_status_classification (kvs : List (String × PyVal))
    (nv sv : PyVal)
    (hn : dictGet kvs "homework_name" = some nv)
    (hs : dictGet kvs "status" = some sv) :
    (∀ code verdict, sv = PyVal.str code → verdicts_lookup code = some verdict →
      parse_status (PyVal.dict kvs) =
        Except.ok ("Изменился статус проверки работы \"" ++ py_str nv ++
                   "\". " ++ verdict)) ∧
    (∀ code, sv = PyVal.str code → verdicts_lookup code = Option.none →
      parse_status (PyVal.dict kvs) =
        Except.error (PyError.homeworkStatusError
          ("Неожиданный статус домашней работы: " ++ code))) ∧
    parse_status (PyVal.dict [("homework_name", PyVal.str "X"),
                              ("status", PyVal.str "approved")]) =
      Except.ok "Изменился статус проверки работы \"X\". Работа проверена: ревьюеру всё понравилось. Ура!" := by
  refine ⟨?_, ?_, rfl⟩
  · intro code verdict hsv hvl
    subst hsv
    simp [parse_status, py_contains, py_getitem, hn, hs, verdict_check, hvl]
  · intro code hsv hvl
    subst hsv
    simp [parse_status, py_contains, py_getitem, hn, hs, verdict_check, hvl,
          py_str]

/-- Witness for C4 at the example item of the claim. -/
theorem C4_parse_status_classification_witness :
    parse_status (PyVal.dict [("homework_name", PyVal.str "X"),
                              ("status", PyVal.str "approved")]) =
      Except.ok "Изменился статус проверки работы \"X\". Работа проверена: ревьюеру всё понравилось. Ура!" :=
  (C4_parse_status_classification
    [("homework_name", PyVal.str "X"), ("status", PyVal.str "approved")]
    (PyVal.str "X") (PyVal.str "approved") rfl rfl).2.2

/-- Claim C5: `check_response` raises `TypeError` on every non-dict
input, `KeyError` on a dict missing `homeworks` or `current_date`,
`TypeError` on a dict whose `homeworks` value is not a list, and returns
the `homeworks` list unchanged (empty included) otherwise. -/
theorem C5_check_response_cases :
    (∀ v : PyVal, (∀ kvs, v ≠ PyVal.dict kvs) →
      ∃ m, check_response v = Except.error (PyError.typeError m)) ∧
    (∀ kvs, (dictGet kvs "homeworks" = Option.none ∨
             dictGet kvs "current_date" = Option.none) →
      check_response (PyVal.dict kvs) =
        Except.error
          (PyError.keyError "Отсутствие ожидаемых ключей в ответе API.")) ∧
    (∀ kvs hv, dictGet kvs "homeworks" = some hv →
      (dictGet kvs "current_date").isSome = true →
      (∀ l, hv ≠ PyVal.list l) →
      ∃ m, check_response (PyVal.dict kvs) =
        Except.error (PyError.typeError m)) ∧
    (∀ kvs l, dictGet kvs "homeworks" = some (PyVal.list l) →
      (dictGet kvs "current_date").isSome = true →
      check_response (PyVal.dict kvs) = Except.ok l) := by
  refine ⟨?_, ?_, ?_, ?_⟩
  · intro v hv
    cases v with
    | dict kvs => exact absurd rfl (hv kvs)
    | none => exact ⟨_, rfl⟩
    | bool b => exact ⟨_, rfl⟩
    | int n => exact ⟨_, rfl⟩
    | str s => exact ⟨_, rfl⟩
    | list l => exact ⟨_, rfl⟩
  · intro kvs h
    rcases h with h | h
    · cases h2 : dictGet kvs "current_date" <;> simp [check_response, h, h2]
    · cases h1 : dictGet kvs "homeworks" <;> simp [check_response, h, h1]
  · intro kvs hv h1 h2 hnl
    cases h3 : dictGet kvs "current_date" with
    | none => rw [h3] at h2; simp at h2
    | some cd =>
        refine ⟨"В ответе API под ключом `homeworks` данные не в виде списка" ++
                "Ожидался тип данных list, получен " ++ hv.typeName, ?_⟩
        cases hv with
        | list l => exact absurd rfl (hnl l)
        | none => simp [check_response, h1, h3]
        | bool b => simp [check_response, h1, h3]
        | int n => simp [check_response, h1, h3]
        | str s => simp [check_response, h1, h3]
        | dict kvs2 => simp [check_response, h1, h3]
  · intro kvs l h1 h2
    cases h3 : dictGet kvs "current_date" with
    | none => rw [h3] at h2; simp at h2
    | some cd => simp [check_response, h1, h3]

/-- Witness for C5 on an accepted response with an empty homeworks list. -/
theorem C5_check_response_cases_witness :
    check_response (PyVal.dict [("homeworks", PyVal.list []),
                                ("current_date", PyVal.int 5)]) =
      Except.ok [] :=
  C5_check_response_cases.2.2.2 _ [] rfl rfl

/-- Claim C6: a cycle whose validated response carries an empty
`homeworks` list sends no notification and sets the cursor to the
response's `current_date` value (also clearing the error flag). -/
theorem C6_empty_homeworks_cycle (kvs : List (String × PyVal)) (cd : PyVal)
    (st : LoopState)
    (hhw : dictGet kvs "homeworks" = some (PyVal.list []))
    (hcd : dictGet kvs "current_date" = some cd) :
    run_cycle (Except.ok (PyVal.dict kvs)) st = (⟨cd, false⟩, []) := by
  have hcr : check_response (PyVal.dict kvs) = Except.ok [] := by
    simp [check_response, hhw, hcd]
  simp [run_cycle, cycle_result, hcr, response_get, hcd]

/-- Witness for C6 at a concrete empty-homeworks response. -/
theorem C6_empty_homeworks_cycle_witness :
    run_cycle
      (Except.ok (PyVal.dict [("homeworks", PyVal.list []),
                              ("current_date", PyVal.int 99)]))
      ⟨PyVal.int 1, true⟩ = (⟨PyVal.int 99, false⟩, []) :=
  C6_empty_homeworks_cycle _ (PyVal.int 99) ⟨PyVal.int 1, true⟩ rfl rfl

/-- Counterexample for C7: a response whose `current_date` is the string
`"oops"` (not an integer) is accepted by `check_response`, and a cycle on
that response updates the cursor to that non-integer value. -/
theorem C7_nonint_current_date_accepted :
    check_response (PyVal.dict [("homeworks", PyVal.list []),
                                ("current_date", PyVal.str "oops")]) =
      Except.ok [] ∧
    (run_cycle
      (Except.ok (PyVal.dict [("homeworks", PyVal.list []),
                              ("current_date", PyVal.str "oops")]))
      ⟨PyVal.int 0, false⟩).1.timestamp = PyVal.str "oops" := by
  exact ⟨rfl, rfl⟩

/-- Claim C7 (amended): every response accepted by `check_response` is a
dict with the key `homeworks` bound to a list (the returned one) and the
key `current_date` present; the type of `current_date` is not checked. -/
theorem C7_accepted_response_shape (v : PyVal) (l : List PyVal)
    (h : check_response v = Except.ok l) :
    ∃ kvs cd, v = PyVal.dict kvs ∧
      dictGet kvs "homeworks" = some (PyVal.list l) ∧
      dictGet kvs "current_date" = some cd := by
  cases v with
  | none => simp [check_response] at h
  | bool b => simp [check_response] at h
  | int n => simp [check_response] at h
  | str s => simp [check_response] at h
  | list l2 => simp [check_response] at h
  | dict kvs =>
      cases h1 : dictGet kvs "homeworks" with
      | none =>
          cases h2 : dictGet kvs "current_date" <;>
            simp [check_response, h1, h2] at h
      | some hv =>
          cases h2 : dictGet kvs "current_date" with
          | none => simp [check_response, h1, h2] at h
          | some cd =>
              cases hv <;> simp [check_response, h1, h2] at h
              case list l2 =>
                subst h
                exact ⟨kvs, cd, rfl, h1, h2⟩

/-- Witness for C7 (amended) at a concrete accepted response. -/
theorem C7_accepted_response_shape_witness :
    ∃ kvs cd,
      PyVal.dict [("homeworks", PyVal.list []), ("current_date", PyVal.int 3)]
        = PyVal.dict kvs ∧
      dictGet kvs "homeworks" = some (PyVal.list []) ∧
      dictGet kvs "current_date" = some cd :=
  C7_accepted_response_shape
    (PyVal.dict [("homeworks", PyVal.list []), ("current_date", PyVal.int 3)])
    [] rfl

/-- Claim C8: `send_message` always returns a boolean to its caller —
`True` on successful delivery, `False` on either caught exception class —
and never lets a transport exception escape. -/
theorem C8_send_message_never_raises :
    (∀ t : Except TelegramError Unit, ∃ b, send_message t = Except.ok b) ∧
    send_message (Except.ok ()) = Except.ok true ∧
    (∀ e : TelegramError, send_message (Except.error e) = Except.ok false) := by
  refine ⟨?_, rfl, ?_⟩
  · intro t
    match t with
    | .ok () => exact ⟨true, rfl⟩
    | .error (.apiException m) => exact ⟨false, rfl⟩
    | .error (.requestException m) => exact ⟨false, rfl⟩
  · intro e
    cases e <;> rfl

/-- Counterexample for C9: an item whose `homework_name` is the empty
string is not rejected; `parse_status` embeds the empty name in the
produced message. -/
theorem C9_empty_name_not_rejected :
    parse_status (PyVal.dict [("homework_name", PyVal.str ""),
                              ("status", PyVal.str "approved")]) =
      Except.ok "Изменился статус проверки работы \"\". Работа проверена: ревьюеру всё понравилось. Ура!" := by
  rfl

/-- Claim C9 (amended): `parse_status` raises a missing-key failure for
any item lacking the key `homework_name`; when the key is present (its
value may be the empty string) the name is embedded in the produced
notification message. -/
theorem C9_name_key_checked (kvs : List (String × PyVal)) :
    (dictGet kvs "homework_name" = Option.none →
      parse_status (PyVal.dict kvs) =
        Except.error (PyError.keyError
          "Получено пустое значение по ключу \"homework_name\".")) ∧
    (∀ nv code verdict,
      dictGet kvs "homework_name" = some nv →
      dictGet kvs "status" = some (PyVal.str code) →
      verdicts_lookup code = some verdict →
      parse_status (PyVal.dict kvs) =
        Except.ok ("Изменился статус проверки работы \"" ++ py_str nv ++
                   "\". " ++ verdict)) := by
  constructor
  · intro h
    simp [parse_status, py_contains, h]
  · intro nv code verdict hn hs hv
    simp [parse_status, py_contains, py_getitem, hn, hs, verdict_check, hv]

/-- Witness for C9 (amended) at an item lacking the name key. -/
theorem C9_name_key_checked_witness :
    parse_status (PyVal.dict [("status", PyVal.str "approved")]) =
      Except.error (PyError.keyError
        "Получено пустое значение по ключу \"homework_name\".") :=
  (C9_name_key_checked [("status", PyVal.str "approved")]).1 rfl

/-- Claim C10: an item with `homework_name` but without `status` makes
`parse_status` raise the plain `KeyError` of the direct `status` lookup,
and `HomeworkStatusError` arises only when the `status` key is present
with a value that is (hashably) outside the verdict table. -/
theorem C10_missing_status_plain_keyerror (kvs : List (String × PyVal))
    (nv : PyVal)
    (hn : dictGet kvs "homework_name" = some nv)
    (hs : dictGet kvs "status" = Option.none) :
    parse_status (PyVal.dict kvs) = Except.error (PyError.keyError "status") ∧
    (∀ kvs2 m, parse_status (PyVal.dict kvs2) =
        Except.error (PyError.homeworkStatusError m) →
      ∃ sv, dictGet kvs2 "status" = some sv ∧
        verdict_check sv = Except.ok Option.none) := by
  constructor
  · simp [parse_status, py_contains, py_getitem, hn, hs]
  · intro kvs2 m h
    cases h1 : dictGet kvs2 "homework_name" with
    | none => simp [parse_status, py_contains, h1] at h
    | some nv2 =>
        cases h2 : dictGet kvs2 "status" with
        | none => simp [parse_status, py_contains, py_getitem, h1, h2] at h
        | some sv =>
            cases sv with
            | str code =>
                cases h3 : verdicts_lookup code with
                | some verdict =>
                    simp [parse_status, py_contains, py_getitem, verdict_check,
                          h1, h2, h3] at h
                | none =>
                    exact ⟨PyVal.str code, rfl, by simp [verdict_check, h3]⟩
            | none => exact ⟨PyVal.none, rfl, rfl⟩
            | bool b => exact ⟨PyVal.bool b, rfl, rfl⟩
            | int n => exact ⟨PyVal.int n, rfl, rfl⟩
            | list l =>
                simp [parse_status, py_contains, py_getitem, verdict_check,
                      h1, h2] at h
            | dict kvs3 =>
                simp [parse_status, py_contains, py_getitem, verdict_check,
                      h1, h2] at h

/-- Witness for C10 at an item with a name but no status. -/
theorem C10_missing_status_plain_keyerror_witness :
    parse_status (PyVal.dict [("homework_name", PyVal.str "X")]) =
      Except.error (PyError.keyError "status") :=
  (C10_missing_status_plain_keyerror [("homework_name", PyVal.str "X")]
    (PyVal.str "X") rfl rfl).1
